import Mathlib

/-
Verification development for the I2C master-mode driver (src/I2C.cpp).

The hardware controller (TWI peripheral) is an external collaborator: each
primitive operation performs exactly one wait on the completion flag, whose
observable outcome is supplied by an environment `Env` (either a timeout of
the wait, or completion together with the value of the hardware status
register and, for receive completions, the byte the hardware loaded into the
data register).  State that the driver itself owns (timeout configuration,
the data register as last written/loaded, the internal receive buffer) is
threaded explicitly, together with a trace of the bus-level actions the
driver performs (start/address/send/receive/stop triggers and lockup
recoveries).  Unsigned C arithmetic is embedded on Nat with explicit % 256
(for uint8_t) where the source relies on truncation; `x >> 8` is embedded as
`x / 256` and `x & 0xFF` as `x % 256`.
-/

namespace I2CModel

/-- Modelled from the spec: the library's header (not among the sources) fixes
the controller's raw status values; the spec describes them as the
vendor-defined codes, all ≥ 8.  Value: start condition transmitted. -/
def START : Nat := 0x08

/-- Modelled from the spec: repeated start condition transmitted. -/
def REPEATED_START : Nat := 0x10

/-- Modelled from the spec: slave address + write bit acknowledged. -/
def MT_SLA_ACK : Nat := 0x18

/-- Modelled from the spec: slave address + write bit not acknowledged. -/
def MT_SLA_NACK : Nat := 0x20

/-- Modelled from the spec: data byte transmitted and acknowledged. -/
def MT_DATA_ACK : Nat := 0x28

/-- Modelled from the spec: data byte transmitted, not acknowledged. -/
def MT_DATA_NACK : Nat := 0x30

/-- Modelled from the spec: slave address + read bit acknowledged. -/
def MR_SLA_ACK : Nat := 0x40

/-- Modelled from the spec: slave address + read bit not acknowledged. -/
def MR_SLA_NACK : Nat := 0x48

/-- Modelled from the spec: arbitration lost. -/
def LOST_ARBTRTN : Nat := 0x38

/-- Modelled from the spec: data byte received, acknowledgment returned. -/
def MR_DATA_ACK : Nat := 0x50

/-- Modelled from the spec: data byte received, no acknowledgment returned. -/
def MR_DATA_NACK : Nat := 0x58

/-- Modelled from the spec: initial-start context selector for
start_error_handler (header constant). -/
def START_MODE : Nat := 0

/-- Modelled from the spec: repeated-start context selector for
start_error_handler (header constant). -/
def REPEATED_START_MODE : Nat := 1

/-- Modelled from the spec: transmit-direction context selector for
send_addr_error_handler (header constant). -/
def TRANSMIT_MODE : Nat := 0

/-- Modelled from the spec: receive-direction context selector for
send_addr_error_handler (header constant). -/
def RECEIVER_MODE : Nat := 1

/-- Modelled from the spec: the internal receive buffer's fixed capacity
(header constant MAX_BUFFER_SIZE); the claims depend only on it being a fixed
positive capacity. -/
def MAX_BUFFER_SIZE : Nat := 32

/-- SLA_W(address): the 7-bit address shifted left with the write bit clear,
truncated to the uint8_t parameter of _sendAddress. -/
def SLA_W (address : Nat) : Nat := (address * 2) % 256

/-- SLA_R(address): the 7-bit address shifted left with the read bit set,
truncated to the uint8_t parameter of _sendAddress. -/
def SLA_R (address : Nat) : Nat := (address * 2 + 1) % 256

/-- One bus-level action performed by the driver, as recorded in the trace:
the five hardware triggers and the lockup recovery reset. -/
inductive TraceOp where
  | startOp : TraceOp
  | addrOp (b : Nat) : TraceOp
  | sendOp (b : Nat) : TraceOp
  | recvOp (ack : Nat) : TraceOp
  | stopOp : TraceOp
  | lockUpOp : TraceOp
  deriving DecidableEq, Repr

/-- Observable outcome of one completion-flag wait: either the flag stalled
past the configured deadline, or it set with the given status register value
and (for receive completions) the byte the hardware loaded into the data
register. -/
inductive HwEvent where
  | timeout : HwEvent
  | done (status : Nat) (byte : Nat) : HwEvent
  deriving DecidableEq, Repr

/-- The hardware environment: the outcome of the i-th completion-flag wait of
the run. -/
abbrev Env : Type := Nat → HwEvent

/-- Driver-owned state: static members of class I2C plus the TWDR data
register (as last written by the driver or loaded by the hardware). -/
structure I2CState where
  timeOutDelay : Nat
  twdr : Nat
  dataBuf : Nat → Nat
  bytesAvailable : Nat
  bufferIndex : Nat
  totalBytes : Nat

/-- A machine configuration: driver state, the index of the next hardware
wait, and the trace of bus actions performed so far. -/
structure M where
  st : I2CState
  pos : Nat
  trace : List TraceOp

/-- Append one bus action to the trace. -/
def record (m : M) (op : TraceOp) : M :=
  { m with trace := m.trace ++ [op] }

/-- Embedding of I2C::lockUp (src/I2C.cpp:1014): resets the controller; the
register writes are hardware-side, so the model records the recovery in the
trace. -/
def lockUp (m : M) : M :=
  record m .lockUpOp

/-- Write the TWDR data register. -/
def setTWDR (m : M) (b : Nat) : M :=
  { m with st := { m.st with twdr := b } }

/-- Consume one hardware wait: advance the event position. -/
def tick (m : M) : M :=
  { m with pos := m.pos + 1 }

/-- Embedding of I2C::start_error_handler (src/I2C.cpp:1026): maps a
primitive-level timeout (1) to fault code 1 in START_MODE and 4 in
REPEATED_START_MODE; other statuses pass through. -/
def start_error_handler (returnStatus mode : Nat) : Nat :=
  if returnStatus = 1 then
    if mode = START_MODE then 1
    else if mode = REPEATED_START_MODE then 4
    else returnStatus
  else returnStatus

/-- Embedding of I2C::stop_error_handler (src/I2C.cpp:1039). -/
def stop_error_handler (returnStatus : Nat) : Nat :=
  if returnStatus = 1 then 7 else returnStatus

/-- Embedding of I2C::receive_error_handler (src/I2C.cpp:1047). -/
def receive_error_handler (returnStatus : Nat) : Nat :=
  if returnStatus = 1 then 6 else returnStatus

/-- Embedding of I2C::send_error_handler (src/I2C.cpp:1055). -/
def send_error_handler (returnStatus : Nat) : Nat :=
  if returnStatus = 1 then 3 else returnStatus

/-- Embedding of I2C::send_addr_error_handler (src/I2C.cpp:1067): maps a
timeout (1) to 2 in TRANSMIT_MODE and 5 in RECEIVER_MODE; other statuses pass
through. -/
def send_addr_error_handler (returnStatus mode : Nat) : Nat :=
  if returnStatus = 1 then
    if mode = TRANSMIT_MODE then 2
    else if mode = RECEIVER_MODE then 5
    else returnStatus
  else returnStatus

/-- Embedding of I2C::_stop (src/I2C.cpp:993): triggers the stop condition
and waits for the stop flag to clear; on a stalled flag past the deadline it
runs lockup recovery and returns 1, otherwise returns 0 (the status register
is not consulted). -/
def i2cStop (env : Env) (m : M) : Nat × M :=
  let m1 := record m .stopOp
  let ev := env m1.pos
  let m2 := tick m1
  match ev with
  | .timeout => (1, lockUp m2)
  | .done _ _ => (0, m2)

/-- Embedding of I2C::_start (src/I2C.cpp:843): triggers a start condition
and waits for completion.  Timeout: lockup recovery, code 1.  START or
REPEATED_START status: success.  LOST_ARBTRTN: lockup recovery, raw status.
Any other status: raw status, with no further bus action. -/
def i2cStart (env : Env) (m : M) : Nat × M :=
  let m1 := record m .startOp
  let ev := env m1.pos
  let m2 := tick m1
  match ev with
  | .timeout => (1, lockUp m2)
  | .done s _ =>
      if s = START ∨ s = REPEATED_START then (0, m2)
      else if s = LOST_ARBTRTN then (s, lockUp m2)
      else (s, m2)

/-- Embedding of I2C::_sendAddress (src/I2C.cpp:872): loads TWDR with the
address byte, triggers the transfer and waits.  Timeout: lockup recovery,
code 1.  MT_SLA_ACK or MR_SLA_ACK: success.  MT_SLA_NACK or MR_SLA_NACK: a
stop is issued (its result discarded) and the raw status returned.  Any other
status: lockup recovery, raw status. -/
def sendAddress (env : Env) (i2cAddress : Nat) (m : M) : Nat × M :=
  let m0 := setTWDR m i2cAddress
  let m1 := record m0 (.addrOp i2cAddress)
  let ev := env m1.pos
  let m2 := tick m1
  match ev with
  | .timeout => (1, lockUp m2)
  | .done s _ =>
      if s = MT_SLA_ACK ∨ s = MR_SLA_ACK then (0, m2)
      else if s = MT_SLA_NACK ∨ s = MR_SLA_NACK then (s, (i2cStop env m2).2)
      else (s, lockUp m2)

/-- Embedding of I2C::_sendByte (src/I2C.cpp:906): loads TWDR with the data
byte, triggers the transfer and waits.  Timeout: lockup recovery, code 1.
MT_DATA_ACK: success.  MT_DATA_NACK: a stop is issued (result discarded) and
the raw status returned.  Any other status: lockup recovery, raw status. -/
def sendByte (env : Env) (i2cData : Nat) (m : M) : Nat × M :=
  let m0 := setTWDR m i2cData
  let m1 := record m0 (.sendOp i2cData)
  let ev := env m1.pos
  let m2 := tick m1
  match ev with
  | .timeout => (1, lockUp m2)
  | .done s _ =>
      if s = MT_DATA_ACK then (0, m2)
      else if s = MT_DATA_NACK then (s, (i2cStop env m2).2)
      else (s, lockUp m2)

/-- Embedding of the one-argument I2C::_receiveByte (src/I2C.cpp:940):
triggers reception with or without the acknowledge bit and waits; on
completion the hardware loads the received byte into TWDR.  Timeout: lockup
recovery, code 1.  LOST_ARBTRTN: lockup recovery, raw status.  With ack
requested, MR_DATA_ACK is success; without ack, MR_DATA_NACK is success; any
other status is returned raw with no further bus action. -/
def receiveByteAck (env : Env) (ack : Nat) (m : M) : Nat × M :=
  let m1 := record m (.recvOp ack)
  let ev := env m1.pos
  let m2 := tick m1
  match ev with
  | .timeout => (1, lockUp m2)
  | .done s b =>
      let m3 := setTWDR m2 b
      if s = LOST_ARBTRTN then (s, lockUp m3)
      else if ack ≠ 0 then
        if s = MR_DATA_ACK then (0, m3) else (s, m3)
      else
        if s = MR_DATA_NACK then (0, m3) else (s, m3)

/-- Embedding of the two-argument I2C::_receiveByte (src/I2C.cpp:979); the
out parameter *target is modelled as the middle component of the result.  On
failure it stores 0x00 and returns the receive_error_handler mapping of the
inner code; on success it stores TWDR and returns 0. -/
def receiveByteInto (env : Env) (ack : Nat) (m : M) : Nat × Nat × M :=
  let p := receiveByteAck env ack m
  if p.1 ≠ 0 then (receive_error_handler p.1, 0x00, p.2)
  else (0, p.2.st.twdr, p.2)

/-- Embedding of I2C::available (src/I2C.cpp:192). -/
def available (m : M) : Nat :=
  m.st.bytesAvailable

/-- Embedding of I2C::receive (src/I2C.cpp:197); the uint8_t subtraction
totalBytes - bytesAvailable is taken mod 256. -/
def receive (m : M) : Nat × M :=
  let bi := (m.st.totalBytes + 256 - m.st.bytesAvailable) % 256
  let m1 := { m with st := { m.st with bufferIndex := bi } }
  if m1.st.bytesAvailable = 0 then
    (0, { m1 with st := { m1.st with bufferIndex := 0 } })
  else
    (m1.st.dataBuf m1.st.bufferIndex,
      { m1 with st := { m1.st with bytesAvailable := m1.st.bytesAvailable - 1 } })

/-- Embedding of I2C::write(uint8_t, uint8_t) (src/I2C.cpp:230).  The source's
sendAddress failure branch calls send_addr_error_handler(returnStatus,
TRANSMIT_MODE) without a return, so the handler value is discarded (the call
is pure) and the sequence continues; the embedding reproduces that. -/
def write2 (env : Env) (address registerAddress : Nat) (m : M) : Nat × M :=
  let p1 := i2cStart env m
  if p1.1 ≠ 0 then (start_error_handler p1.1 START_MODE, p1.2) else
  let p2 := sendAddress env (SLA_W address) p1.2
  let p3 := sendByte env registerAddress p2.2
  if p3.1 ≠ 0 then (send_error_handler p3.1, p3.2) else
  let p4 := i2cStop env p3.2
  if p4.1 ≠ 0 then (stop_error_handler p4.1, p4.2) else
  (p4.1, p4.2)

/-- Sequential transmission of a list of data bytes, embedding the
`for (i = 0; i < numberBytes; i++)` send loops of the block writes
(src/I2C.cpp:347, 686): the first failing byte aborts the whole call with
send_error_handler applied to its code. -/
def sendDataLoop (env : Env) (bytes : List Nat) (m : M) : Nat × M :=
  match bytes with
  | [] => (0, m)
  | b :: rest =>
      let p := sendByte env b m
      if p.1 ≠ 0 then (send_error_handler p.1, p.2)
      else sendDataLoop env rest p.2

/-- Embedding of I2C::write(uint8_t, uint8_t, const uint8_t*, uint8_t)
(src/I2C.cpp:335); the data pointer with its numberBytes count is modelled as
a list.  As in write2, the sendAddress failure branch discards the handler
value (missing return in the source). -/
def writeBuf (env : Env) (address registerAddress : Nat) (data : List Nat) (m : M) : Nat × M :=
  let p1 := i2cStart env m
  if p1.1 ≠ 0 then (start_error_handler p1.1 START_MODE, p1.2) else
  let p2 := sendAddress env (SLA_W address) p1.2
  let p3 := sendByte env registerAddress p2.2
  if p3.1 ≠ 0 then (send_error_handler p3.1, p3.2) else
  let p4 := sendDataLoop env data p3.2
  if p4.1 ≠ 0 then (p4.1, p4.2) else
  let p5 := i2cStop env p4.2
  if p5.1 ≠ 0 then (stop_error_handler p5.1, p5.2) else
  (p5.1, p5.2)

/-- The writeBytes array of I2C::write(uint8_t, uint8_t, uint16_t)
(src/I2C.cpp:288): (data >> 8) & 0xFF, then data & 0xFF. -/
def writeBytes16 (data : Nat) : List Nat :=
  [data / 256 % 256, data % 256]

/-- The writeBytes array of I2C::write(uint8_t, uint8_t, uint32_t)
(src/I2C.cpp:301): shifts of 24, 16, 8, 0 bits, each masked to a byte. -/
def writeBytes32 (data : Nat) : List Nat :=
  [data / 256 ^ 3 % 256, data / 256 ^ 2 % 256, data / 256 % 256, data % 256]

/-- The writeBytes array of I2C::write(uint8_t, uint8_t, uint64_t)
(src/I2C.cpp:316): shifts of 56 down to 0 bits, each masked to a byte. -/
def writeBytes64 (data : Nat) : List Nat :=
  [data / 256 ^ 7 % 256, data / 256 ^ 6 % 256, data / 256 ^ 5 % 256,
   data / 256 ^ 4 % 256, data / 256 ^ 3 % 256, data / 256 ^ 2 % 256,
   data / 256 % 256, data % 256]

/-- Embedding of I2C::write(uint8_t, uint8_t, uint16_t) (src/I2C.cpp:288):
serializes the value into writeBytes and delegates to the block write. -/
def writeScalar16 (env : Env) (address registerAddress data : Nat) (m : M) : Nat × M :=
  writeBuf env address registerAddress (writeBytes16 data) m

/-- Embedding of I2C::write(uint8_t, uint8_t, uint32_t) (src/I2C.cpp:301). -/
def writeScalar32 (env : Env) (address registerAddress data : Nat) (m : M) : Nat × M :=
  writeBuf env address registerAddress (writeBytes32 data) m

/-- Embedding of I2C::write(uint8_t, uint8_t, uint64_t) (src/I2C.cpp:316). -/
def writeScalar64 (env : Env) (address registerAddress data : Nat) (m : M) : Nat × M :=
  writeBuf env address registerAddress (writeBytes64 data) m

/-- Embedding of I2C::write16(uint8_t, uint16_t) (src/I2C.cpp:615): register
MSB (registerAddress >> 8) then LSB (registerAddress & 0xFF). -/
def write16Reg (env : Env) (address registerAddress : Nat) (m : M) : Nat × M :=
  let p1 := i2cStart env m
  if p1.1 ≠ 0 then (start_error_handler p1.1 START_MODE, p1.2) else
  let p2 := sendAddress env (SLA_W address) p1.2
  if p2.1 ≠ 0 then (send_addr_error_handler p2.1 TRANSMIT_MODE, p2.2) else
  let p3 := sendByte env (registerAddress / 256) p2.2
  if p3.1 ≠ 0 then (send_error_handler p3.1, p3.2) else
  let p4 := sendByte env (registerAddress % 256) p3.2
  if p4.1 ≠ 0 then (send_error_handler p4.1, p4.2) else
  let p5 := i2cStop env p4.2
  if p5.1 ≠ 0 then (stop_error_handler p5.1, p5.2) else
  (p5.1, p5.2)

/-- Embedding of I2C::write16(uint8_t, uint16_t, const uint8_t*, uint8_t)
(src/I2C.cpp:669).  Note: the sendAddress failure branch passes
RECEIVER_MODE to send_addr_error_handler although the address was sent with
SLA_W, exactly as in the source (line 676). -/
def write16Buf (env : Env) (address registerAddress : Nat) (data : List Nat) (m : M) : Nat × M :=
  let p1 := i2cStart env m
  if p1.1 ≠ 0 then (start_error_handler p1.1 START_MODE, p1.2) else
  let p2 := sendAddress env (SLA_W address) p1.2
  if p2.1 ≠ 0 then (send_addr_error_handler p2.1 RECEIVER_MODE, p2.2) else
  let p3 := sendByte env (registerAddress / 256) p2.2
  if p3.1 ≠ 0 then (send_error_handler p3.1, p3.2) else
  let p4 := sendByte env (registerAddress % 256) p3.2
  if p4.1 ≠ 0 then (send_error_handler p4.1, p4.2) else
  let p5 := sendDataLoop env data p4.2
  if p5.1 ≠ 0 then (p5.1, p5.2) else
  let p6 := i2cStop env p5.2
  if p6.1 ≠ 0 then (stop_error_handler p6.1, p6.2) else
  (p6.1, p6.2)

/-- Embedding of I2C::write16(uint8_t, uint16_t, uint16_t) (src/I2C.cpp:696). -/
def write16Scalar16 (env : Env) (address registerAddress data : Nat) (m : M) : Nat × M :=
  write16Buf env address registerAddress (writeBytes16 data) m

/-- Embedding of I2C::write16(uint8_t, uint16_t, uint32_t) (src/I2C.cpp:709). -/
def write16Scalar32 (env : Env) (address registerAddress data : Nat) (m : M) : Nat × M :=
  write16Buf env address registerAddress (writeBytes32 data) m

/-- Embedding of I2C::write16(uint8_t, uint16_t, uint64_t) (src/I2C.cpp:724). -/
def write16Scalar64 (env : Env) (address registerAddress data : Nat) (m : M) : Nat × M :=
  write16Buf env address registerAddress (writeBytes64 data) m

/-- Store the received byte into the internal buffer after a successful
receive: data[i] = TWDR; bytesAvailable = i + 1; totalBytes = i + 1
(src/I2C.cpp:394-396 and the identical lines of the other internal reads). -/
def storeByte (m : M) (i : Nat) : M :=
  { m with st := { m.st with
      dataBuf := fun j => if j = i then m.st.twdr else m.st.dataBuf j,
      bytesAvailable := i + 1,
      totalBytes := i + 1 } }

/-- The internal-buffer receive loop shared verbatim by the internal reads
(src/I2C.cpp:381-397, 435-450, 774-789): byte index i counts up while
`remaining` counts down; the last byte (i = nack) is received without
acknowledge; a failing receive aborts the call through
receive_error_handler. -/
def recvLoopInternal (env : Env) (remaining nack i : Nat) (m : M) : Nat × M :=
  match remaining with
  | 0 => (0, m)
  | Nat.succ rem =>
      let p := receiveByteAck env (if i = nack then 0 else 1) m
      if p.1 ≠ 0 then (receive_error_handler p.1, p.2)
      else recvLoopInternal env rem nack (i + 1) (storeByte p.2 i)

/-- The caller-buffer receive loop of the buffer reads (src/I2C.cpp:471-484,
549-562, 822-835); the caller's dataBuffer is modelled as the accumulated
byte list. -/
def recvLoopBuf (env : Env) (remaining nack i : Nat) (acc : List Nat) (m : M) :
    Nat × List Nat × M :=
  match remaining with
  | 0 => (0, acc, m)
  | Nat.succ rem =>
      let p := receiveByteAck env (if i = nack then 0 else 1) m
      if p.1 ≠ 0 then (receive_error_handler p.1, acc, p.2)
      else recvLoopBuf env rem nack (i + 1) (acc ++ [p.2.st.twdr]) p.2

/-- Embedding of I2C::read(uint8_t, uint8_t) (src/I2C.cpp:364): resets the
buffer bookkeeping, caps numberBytes at MAX_BUFFER_SIZE, bumps a zero request
to 1, then start, address with the read bit, receive loop, stop. -/
def read2 (env : Env) (address numberBytes : Nat) (m : M) : Nat × M :=
  let mr := { m with st := { m.st with bytesAvailable := 0, bufferIndex := 0 } }
  let n0 := min numberBytes MAX_BUFFER_SIZE
  let n := if n0 = 0 then n0 + 1 else n0
  let nack := n - 1
  let p1 := i2cStart env mr
  if p1.1 ≠ 0 then (start_error_handler p1.1 START_MODE, p1.2) else
  let p2 := sendAddress env (SLA_R address) p1.2
  if p2.1 ≠ 0 then (send_addr_error_handler p2.1 RECEIVER_MODE, p2.2) else
  let p3 := recvLoopInternal env n nack 0 p2.2
  if p3.1 ≠ 0 then (p3.1, p3.2) else
  let p4 := i2cStop env p3.2
  if p4.1 ≠ 0 then (stop_error_handler p4.1, p4.2) else
  (p4.1, p4.2)

/-- Embedding of I2C::read(uint8_t, uint8_t, uint8_t) (src/I2C.cpp:409).
Note: the register-byte sendByte failure is routed through
send_addr_error_handler with RECEIVER_MODE, exactly as in the source
(line 427). -/
def read3 (env : Env) (address registerAddress numberBytes : Nat) (m : M) : Nat × M :=
  let mr := { m with st := { m.st with bytesAvailable := 0, bufferIndex := 0 } }
  let n0 := min numberBytes MAX_BUFFER_SIZE
  let n := if n0 = 0 then n0 + 1 else n0
  let nack := n - 1
  let p1 := i2cStart env mr
  if p1.1 ≠ 0 then (start_error_handler p1.1 START_MODE, p1.2) else
  let p2 := sendAddress env (SLA_W address) p1.2
  if p2.1 ≠ 0 then (send_addr_error_handler p2.1 TRANSMIT_MODE, p2.2) else
  let p3 := sendByte env registerAddress p2.2
  if p3.1 ≠ 0 then (send_addr_error_handler p3.1 RECEIVER_MODE, p3.2) else
  let p4 := i2cStart env p3.2
  if p4.1 ≠ 0 then (start_error_handler p4.1 REPEATED_START_MODE, p4.2) else
  let p5 := sendAddress env (SLA_R address) p4.2
  if p5.1 ≠ 0 then (send_addr_error_handler p5.1 RECEIVER_MODE, p5.2) else
  let p6 := recvLoopInternal env n nack 0 p5.2
  if p6.1 ≠ 0 then (p6.1, p6.2) else
  let p7 := i2cStop env p6.2
  if p7.1 ≠ 0 then (stop_error_handler p7.1, p7.2) else
  (p7.1, p7.2)

/-- Embedding of I2C::read16(uint8_t, uint16_t, uint8_t) (src/I2C.cpp:743):
the internal-buffer 16-bit-register read. -/
def read16Internal (env : Env) (address registerAddress numberBytes : Nat) (m : M) : Nat × M :=
  let mr := { m with st := { m.st with bytesAvailable := 0, bufferIndex := 0 } }
  let n0 := min numberBytes MAX_BUFFER_SIZE
  let n := if n0 = 0 then n0 + 1 else n0
  let nack := n - 1
  let p1 := i2cStart env mr
  if p1.1 ≠ 0 then (start_error_handler p1.1 START_MODE, p1.2) else
  let p2 := sendAddress env (SLA_W address) p1.2
  if p2.1 ≠ 0 then (send_addr_error_handler p2.1 TRANSMIT_MODE, p2.2) else
  let p3 := sendByte env (registerAddress / 256) p2.2
  if p3.1 ≠ 0 then (send_error_handler p3.1, p3.2) else
  let p4 := sendByte env (registerAddress % 256) p3.2
  if p4.1 ≠ 0 then (send_error_handler p4.1, p4.2) else
  let p5 := i2cStart env p4.2
  if p5.1 ≠ 0 then (start_error_handler p5.1 REPEATED_START_MODE, p5.2) else
  let p6 := sendAddress env (SLA_R address) p5.2
  if p6.1 ≠ 0 then (send_addr_error_handler p6.1 RECEIVER_MODE, p6.2) else
  let p7 := recvLoopInternal env n nack 0 p6.2
  if p7.1 ≠ 0 then (p7.1, p7.2) else
  let p8 := i2cStop env p7.2
  if p8.1 ≠ 0 then (stop_error_handler p8.1, p8.2) else
  (p8.1, p8.2)

/-- Embedding of I2C::read16(uint8_t, uint16_t, uint8_t, uint8_t*)
(src/I2C.cpp:795); dataBuffer is modelled as the returned byte list.  Note:
the second (repeated) start's failure is routed through start_error_handler
with START_MODE, exactly as in the source (line 817). -/
def read16Buf (env : Env) (address registerAddress numberBytes : Nat) (m : M) :
    Nat × List Nat × M :=
  let n := if numberBytes = 0 then numberBytes + 1 else numberBytes
  let nack := n - 1
  let p1 := i2cStart env m
  if p1.1 ≠ 0 then (start_error_handler p1.1 START_MODE, [], p1.2) else
  let p2 := sendAddress env (SLA_W address) p1.2
  if p2.1 ≠ 0 then (send_addr_error_handler p2.1 TRANSMIT_MODE, [], p2.2) else
  let p3 := sendByte env (registerAddress / 256) p2.2
  if p3.1 ≠ 0 then (send_error_handler p3.1, [], p3.2) else
  let p4 := sendByte env (registerAddress % 256) p3.2
  if p4.1 ≠ 0 then (send_error_handler p4.1, [], p4.2) else
  let p5 := i2cStart env p4.2
  if p5.1 ≠ 0 then (start_error_handler p5.1 START_MODE, [], p5.2) else
  let p6 := sendAddress env (SLA_R address) p5.2
  if p6.1 ≠ 0 then (send_addr_error_handler p6.1 RECEIVER_MODE, [], p6.2) else
  let p7 := recvLoopBuf env n nack 0 [] p6.2
  if p7.1 ≠ 0 then (p7.1, p7.2.1, p7.2.2) else
  let p8 := i2cStop env p7.2.2
  if p8.1 ≠ 0 then (stop_error_handler p8.1, p7.2.1, p8.2) else
  (p8.1, p7.2.1, p8.2)

/-- The per-address body of I2C::scan (src/I2C.cpp:159-184), iterated over
the 128 addresses: start, then address if the start succeeded; a code of
exactly 1 aborts the scan after restoring the saved timeout; any other
outcome (success or a non-timeout status) falls through to a stop and the
next address.  Console printing and the found-device counter only drive
output and are omitted. -/
def scanLoop (env : Env) (fuel tempTime : Nat) (m : M) : M :=
  match fuel with
  | 0 => { m with st := { m.st with timeOutDelay := tempTime } }
  | Nat.succ rem =>
      let p := i2cStart env m
      let q := if p.1 = 0 then sendAddress env (SLA_W (127 - rem)) p.2 else p
      if q.1 = 1 then { q.2 with st := { q.2.st with timeOutDelay := tempTime } }
      else scanLoop env rem tempTime (i2cStop env q.2).2

/-- Embedding of I2C::scan (src/I2C.cpp:152): saves the configured timeout,
sets an 80 ms scan timeout, walks addresses 0 through 0x7F, and restores the
saved timeout on either exit path. -/
def scan (env : Env) (m : M) : M :=
  let tempTime := m.st.timeOutDelay
  let m1 := { m with st := { m.st with timeOutDelay := 80 } }
  scanLoop env 128 tempTime m1

/-- The bytes placed on the bus by data-byte transmissions, in order: the
sendOp payloads of a trace. -/
def sentBytes (tr : List TraceOp) : List Nat :=
  tr.filterMap fun op =>
    match op with
    | .sendOp b => some b
    | _ => none

/-- The number of bytes clocked in from the slave: the count of receive
triggers in a trace. -/
def recvCount (tr : List TraceOp) : Nat :=
  tr.countP fun op =>
    match op with
    | .recvOp _ => true
    | _ => false

/-- Big-endian byte serialization as the spec words it: the byte at position
i of a k-byte value is the i-th most significant byte.  Stated from the spec
for comparison against the source-side writeBytes arrays and register-byte
sends. -/
def specBigEndianBytes (k d : Nat) : List Nat :=
  (List.range k).map fun i => d / 256 ^ (k - 1 - i) % 256

/-- The run from `m` to m2 performed a bus-idling action: a stop or a lockup
recovery appears in the freshly appended part of the trace. -/
def idles (m m2 : M) : Prop :=
  TraceOp.stopOp ∈ m2.trace.drop m.trace.length ∨
    TraceOp.lockUpOp ∈ m2.trace.drop m.trace.length

instance (m m2 : M) : Decidable (idles m m2) := by
  unfold idles
  infer_instance

/-- A quiescent initial configuration for concrete runs: 100 ms timeout,
empty buffer, empty trace. -/
def initM : M :=
  { st := { timeOutDelay := 100, twdr := 0, dataBuf := fun _ => 0,
            bytesAvailable := 0, bufferIndex := 0, totalBytes := 0 },
    pos := 0, trace := [] }

/-- An environment from a finite outcome script; waits past the end of the
script complete with a zero status. -/
def evts (l : List HwEvent) : Env :=
  fun i => l.getD i (.done 0 0)

/-! ### Concrete environments for the claim-level runs -/

/-- Environment for the C1 run: the start completes, the address ACK wait
times out, and every later wait completes successfully. -/
def envC1 : Env :=
  evts [HwEvent.done START 0, HwEvent.timeout, HwEvent.done MT_DATA_ACK 0,
    HwEvent.done 0 0]

/-- Environment for the C2 counterexample: the start wait completes with the
unexpected status 0x20 (not a start, not arbitration loss). -/
def envC2 : Env :=
  evts [HwEvent.done MT_SLA_NACK 0]

/-- Environment for the C2 witness: the first wait times out. -/
def envC2w : Env :=
  evts [HwEvent.timeout]

/-- Environment for the C3 run: start and address ACK succeed, then the
register-byte ACK wait times out. -/
def envC3 : Env :=
  evts [HwEvent.done START 0, HwEvent.done MT_SLA_ACK 0, HwEvent.timeout]

/-- Environment for the C4 run: start, address, and both register bytes
succeed, then the repeated-start wait times out. -/
def envC4 : Env :=
  evts [HwEvent.done START 0, HwEvent.done MT_SLA_ACK 0, HwEvent.done MT_DATA_ACK 0,
    HwEvent.done MT_DATA_ACK 0, HwEvent.timeout]

/-- Environment for the C5 run: the start succeeds, then the address ACK wait
times out. -/
def envC5 : Env :=
  evts [HwEvent.done START 0, HwEvent.timeout]

/-- All-ACK transmit environment: start completes, the address is
acknowledged, and every later wait completes with a data ACK. -/
def envMT : Env := fun i =>
  if i = 0 then HwEvent.done START 0
  else if i = 1 then HwEvent.done MT_SLA_ACK 0
  else HwEvent.done MT_DATA_ACK 0

/-- Successful no-register 4-byte read: three ACKed bytes, one NACKed byte,
then the stop completes. -/
def envR2 : Env :=
  evts [HwEvent.done START 0, HwEvent.done MR_SLA_ACK 0, HwEvent.done MR_DATA_ACK 11,
    HwEvent.done MR_DATA_ACK 22, HwEvent.done MR_DATA_ACK 33,
    HwEvent.done MR_DATA_NACK 44, HwEvent.done 0 0]

/-- Successful 8-bit-register 1-byte read with repeated start. -/
def envR3 : Env :=
  evts [HwEvent.done START 0, HwEvent.done MT_SLA_ACK 0, HwEvent.done MT_DATA_ACK 0,
    HwEvent.done REPEATED_START 0, HwEvent.done MR_SLA_ACK 0,
    HwEvent.done MR_DATA_NACK 7, HwEvent.done 0 0]

/-- Successful 16-bit-register read of a zero-byte request (bumped to one). -/
def envR16 : Env :=
  evts [HwEvent.done START 0, HwEvent.done MT_SLA_ACK 0, HwEvent.done MT_DATA_ACK 0,
    HwEvent.done MT_DATA_ACK 0, HwEvent.done REPEATED_START 0,
    HwEvent.done MR_SLA_ACK 0, HwEvent.done MR_DATA_NACK 9, HwEvent.done 0 0]

/-- Environment delivering one successfully ACKed received byte 0x5A. -/
def envC10a : Env :=
  evts [HwEvent.done MR_DATA_ACK 0x5A]

/-- Environment whose first wait times out (receive failure). -/
def envC10b : Env :=
  evts [HwEvent.timeout]

/-! ### Helper lemmas: error handlers never turn a failure into success -/

theorem start_error_handler_ne {r mode : Nat} (h : r ≠ 0) :
    start_error_handler r mode ≠ 0 := by
  unfold start_error_handler
  split_ifs <;> omega

theorem stop_error_handler_ne {r : Nat} (h : r ≠ 0) :
    stop_error_handler r ≠ 0 := by
  unfold stop_error_handler
  split_ifs <;> omega

theorem receive_error_handler_ne {r : Nat} (h : r ≠ 0) :
    receive_error_handler r ≠ 0 := by
  unfold receive_error_handler
  split_ifs <;> omega

theorem send_error_handler_ne {r : Nat} (h : r ≠ 0) :
    send_error_handler r ≠ 0 := by
  unfold send_error_handler
  split_ifs <;> omega

theorem send_addr_error_handler_ne {r mode : Nat} (h : r ≠ 0) :
    send_addr_error_handler r mode ≠ 0 := by
  unfold send_addr_error_handler
  split_ifs <;> omega

/-! ### Helper lemmas: filtered views of the trace -/

theorem sentBytes_append (l1 l2 : List TraceOp) :
    sentBytes (l1 ++ l2) = sentBytes l1 ++ sentBytes l2 := by
  simp [sentBytes]

theorem recvCount_append (l1 l2 : List TraceOp) :
    recvCount (l1 ++ l2) = recvCount l1 + recvCount l2 := by
  simp [recvCount]

theorem sentBytes_nil : sentBytes [] = [] := rfl

theorem sentBytes_startOp (l : List TraceOp) :
    sentBytes (TraceOp.startOp :: l) = sentBytes l := rfl

theorem sentBytes_addrOp (a : Nat) (l : List TraceOp) :
    sentBytes (TraceOp.addrOp a :: l) = sentBytes l := rfl

theorem sentBytes_sendOp (b : Nat) (l : List TraceOp) :
    sentBytes (TraceOp.sendOp b :: l) = b :: sentBytes l := rfl

theorem sentBytes_recvOp (ack : Nat) (l : List TraceOp) :
    sentBytes (TraceOp.recvOp ack :: l) = sentBytes l := rfl

theorem sentBytes_stopOp (l : List TraceOp) :
    sentBytes (TraceOp.stopOp :: l) = sentBytes l := rfl

theorem sentBytes_lockUpOp (l : List TraceOp) :
    sentBytes (TraceOp.lockUpOp :: l) = sentBytes l := rfl

theorem recvCount_nil : recvCount [] = 0 := rfl

theorem recvCount_startOp (l : List TraceOp) :
    recvCount (TraceOp.startOp :: l) = recvCount l := by
  simp [recvCount]

theorem recvCount_addrOp (a : Nat) (l : List TraceOp) :
    recvCount (TraceOp.addrOp a :: l) = recvCount l := by
  simp [recvCount]

theorem recvCount_sendOp (b : Nat) (l : List TraceOp) :
    recvCount (TraceOp.sendOp b :: l) = recvCount l := by
  simp [recvCount]

theorem recvCount_recvOp (ack : Nat) (l : List TraceOp) :
    recvCount (TraceOp.recvOp ack :: l) = recvCount l + 1 := by
  simp [recvCount, Nat.add_comm]

theorem recvCount_stopOp (l : List TraceOp) :
    recvCount (TraceOp.stopOp :: l) = recvCount l := by
  simp [recvCount]

theorem recvCount_lockUpOp (l : List TraceOp) :
    recvCount (TraceOp.lockUpOp :: l) = recvCount l := by
  simp [recvCount]

/-! ### Helper lemmas: effect of each primitive on the observables -/

theorem i2cStop_st (env : Env) (m : M) : (i2cStop env m).2.st = m.st := by
  rcases henv : env m.pos with _ | ⟨s, b⟩ <;>
    simp [i2cStop, record, tick, lockUp, henv]

theorem i2cStop_sentBytes (env : Env) (m : M) :
    sentBytes (i2cStop env m).2.trace = sentBytes m.trace := by
  rcases henv : env m.pos with _ | ⟨s, b⟩ <;>
    simp [i2cStop, record, tick, lockUp, henv, sentBytes_append, sentBytes_nil, sentBytes_startOp, sentBytes_addrOp, sentBytes_sendOp, sentBytes_recvOp, sentBytes_stopOp, sentBytes_lockUpOp]

theorem i2cStop_recvCount (env : Env) (m : M) :
    recvCount (i2cStop env m).2.trace = recvCount m.trace := by
  rcases henv : env m.pos with _ | ⟨s, b⟩ <;>
    simp [i2cStop, record, tick, lockUp, henv, recvCount_append, recvCount_nil, recvCount_startOp, recvCount_addrOp, recvCount_sendOp, recvCount_recvOp, recvCount_stopOp, recvCount_lockUpOp]

theorem i2cStart_ba (env : Env) (m : M) :
    (i2cStart env m).2.st.bytesAvailable = m.st.bytesAvailable := by
  rcases henv : env m.pos with _ | ⟨s, b⟩
  · simp [i2cStart, record, tick, lockUp, henv]
  · simp only [i2cStart, record, tick, lockUp, henv]
    split_ifs <;> simp [record]

theorem i2cStart_sentBytes (env : Env) (m : M) :
    sentBytes (i2cStart env m).2.trace = sentBytes m.trace := by
  rcases henv : env m.pos with _ | ⟨s, b⟩
  · simp [i2cStart, record, tick, lockUp, henv, sentBytes_append, sentBytes_nil, sentBytes_startOp, sentBytes_addrOp, sentBytes_sendOp, sentBytes_recvOp, sentBytes_stopOp, sentBytes_lockUpOp]
  · simp only [i2cStart, record, tick, lockUp, henv]
    split_ifs <;> simp [record, sentBytes_append, sentBytes_nil, sentBytes_startOp, sentBytes_addrOp, sentBytes_sendOp, sentBytes_recvOp, sentBytes_stopOp, sentBytes_lockUpOp]

theorem i2cStart_recvCount (env : Env) (m : M) :
    recvCount (i2cStart env m).2.trace = recvCount m.trace := by
  rcases henv : env m.pos with _ | ⟨s, b⟩
  · simp [i2cStart, record, tick, lockUp, henv, recvCount_append, recvCount_nil, recvCount_startOp, recvCount_addrOp, recvCount_sendOp, recvCount_recvOp, recvCount_stopOp, recvCount_lockUpOp]
  · simp only [i2cStart, record, tick, lockUp, henv]
    split_ifs <;> simp [record, recvCount_append, recvCount_nil, recvCount_startOp, recvCount_addrOp, recvCount_sendOp, recvCount_recvOp, recvCount_stopOp, recvCount_lockUpOp]

theorem sendAddress_ba (env : Env) (a : Nat) (m : M) :
    (sendAddress env a m).2.st.bytesAvailable = m.st.bytesAvailable := by
  rcases henv : env m.pos with _ | ⟨s, b⟩
  · simp [sendAddress, record, tick, lockUp, setTWDR, henv]
  · simp only [sendAddress, record, tick, lockUp, setTWDR, henv]
    split_ifs <;> simp [record, i2cStop_st]

theorem sendAddress_sentBytes (env : Env) (a : Nat) (m : M) :
    sentBytes (sendAddress env a m).2.trace = sentBytes m.trace := by
  rcases henv : env m.pos with _ | ⟨s, b⟩
  · simp [sendAddress, record, tick, lockUp, setTWDR, henv, sentBytes_append, sentBytes_nil, sentBytes_startOp, sentBytes_addrOp, sentBytes_sendOp, sentBytes_recvOp, sentBytes_stopOp, sentBytes_lockUpOp]
  · simp only [sendAddress, record, tick, lockUp, setTWDR, henv]
    split_ifs <;> simp [record, i2cStop_sentBytes, sentBytes_append, sentBytes_nil, sentBytes_startOp, sentBytes_addrOp, sentBytes_sendOp, sentBytes_recvOp, sentBytes_stopOp, sentBytes_lockUpOp]

theorem sendAddress_recvCount (env : Env) (a : Nat) (m : M) :
    recvCount (sendAddress env a m).2.trace = recvCount m.trace := by
  rcases henv : env m.pos with _ | ⟨s, b⟩
  · simp [sendAddress, record, tick, lockUp, setTWDR, henv, recvCount_append, recvCount_nil, recvCount_startOp, recvCount_addrOp, recvCount_sendOp, recvCount_recvOp, recvCount_stopOp, recvCount_lockUpOp]
  · simp only [sendAddress, record, tick, lockUp, setTWDR, henv]
    split_ifs <;> simp [record, i2cStop_recvCount, recvCount_append, recvCount_nil, recvCount_startOp, recvCount_addrOp, recvCount_sendOp, recvCount_recvOp, recvCount_stopOp, recvCount_lockUpOp]

theorem sendByte_ba (env : Env) (b0 : Nat) (m : M) :
    (sendByte env b0 m).2.st.bytesAvailable = m.st.bytesAvailable := by
  rcases henv : env m.pos with _ | ⟨s, b⟩
  · simp [sendByte, record, tick, lockUp, setTWDR, henv]
  · simp only [sendByte, record, tick, lockUp, setTWDR, henv]
    split_ifs <;> simp [record, i2cStop_st]

theorem sendByte_sentBytes (env : Env) (b0 : Nat) (m : M) :
    sentBytes (sendByte env b0 m).2.trace = sentBytes m.trace ++ [b0] := by
  rcases henv : env m.pos with _ | ⟨s, b⟩
  · simp [sendByte, record, tick, lockUp, setTWDR, henv, sentBytes_append, sentBytes_nil, sentBytes_startOp, sentBytes_addrOp, sentBytes_sendOp, sentBytes_recvOp, sentBytes_stopOp, sentBytes_lockUpOp]
  · simp only [sendByte, record, tick, lockUp, setTWDR, henv]
    split_ifs <;> simp [record, i2cStop_sentBytes, sentBytes_append, sentBytes_nil, sentBytes_startOp, sentBytes_addrOp, sentBytes_sendOp, sentBytes_recvOp, sentBytes_stopOp, sentBytes_lockUpOp]

theorem sendByte_recvCount (env : Env) (b0 : Nat) (m : M) :
    recvCount (sendByte env b0 m).2.trace = recvCount m.trace := by
  rcases henv : env m.pos with _ | ⟨s, b⟩
  · simp [sendByte, record, tick, lockUp, setTWDR, henv, recvCount_append, recvCount_nil, recvCount_startOp, recvCount_addrOp, recvCount_sendOp, recvCount_recvOp, recvCount_stopOp, recvCount_lockUpOp]
  · simp only [sendByte, record, tick, lockUp, setTWDR, henv]
    split_ifs <;> simp [record, i2cStop_recvCount, recvCount_append, recvCount_nil, recvCount_startOp, recvCount_addrOp, recvCount_sendOp, recvCount_recvOp, recvCount_stopOp, recvCount_lockUpOp]

theorem receiveByteAck_sentBytes (env : Env) (ack : Nat) (m : M) :
    sentBytes (receiveByteAck env ack m).2.trace = sentBytes m.trace := by
  rcases henv : env m.pos with _ | ⟨s, b⟩
  · simp [receiveByteAck, record, tick, lockUp, setTWDR, henv, sentBytes_append, sentBytes_nil, sentBytes_startOp, sentBytes_addrOp, sentBytes_sendOp, sentBytes_recvOp, sentBytes_stopOp, sentBytes_lockUpOp]
  · simp only [receiveByteAck, record, tick, lockUp, setTWDR, henv]
    split_ifs <;> simp [record, sentBytes_append, sentBytes_nil, sentBytes_startOp, sentBytes_addrOp, sentBytes_sendOp, sentBytes_recvOp, sentBytes_stopOp, sentBytes_lockUpOp]

theorem receiveByteAck_recvCount (env : Env) (ack : Nat) (m : M) :
    recvCount (receiveByteAck env ack m).2.trace = recvCount m.trace + 1 := by
  rcases henv : env m.pos with _ | ⟨s, b⟩
  · simp [receiveByteAck, record, tick, lockUp, setTWDR, henv, recvCount_append, recvCount_nil, recvCount_startOp, recvCount_addrOp, recvCount_sendOp, recvCount_recvOp, recvCount_stopOp, recvCount_lockUpOp]
  · simp only [receiveByteAck, record, tick, lockUp, setTWDR, henv]
    split_ifs <;> simp [record, recvCount_append, recvCount_nil, recvCount_startOp, recvCount_addrOp, recvCount_sendOp, recvCount_recvOp, recvCount_stopOp, recvCount_lockUpOp]

theorem storeByte_trace (m : M) (i : Nat) : (storeByte m i).trace = m.trace := rfl

theorem storeByte_ba (m : M) (i : Nat) : (storeByte m i).st.bytesAvailable = i + 1 := rfl

/-! ### Helper lemmas: the transmit and receive loops on success -/

theorem sendDataLoop_ok (env : Env) :
    ∀ (bytes : List Nat) (m : M), (sendDataLoop env bytes m).1 = 0 →
      sentBytes (sendDataLoop env bytes m).2.trace = sentBytes m.trace ++ bytes := by
  intro bytes
  induction bytes with
  | nil => intro m h; simp [sendDataLoop]
  | cons b rest ih =>
      intro m h
      simp only [sendDataLoop] at h ⊢
      by_cases hb : (sendByte env b m).1 = 0
      · simp only [hb, ne_eq, not_true_eq_false, if_false] at h ⊢
        rw [ih _ h, sendByte_sentBytes]
        simp
      · rw [if_pos hb] at h
        simp only at h
        exact absurd h (send_error_handler_ne hb)

theorem recvLoopInternal_ok (env : Env) :
    ∀ (remaining nack i : Nat) (m : M), 1 ≤ remaining →
      (recvLoopInternal env remaining nack i m).1 = 0 →
      (recvLoopInternal env remaining nack i m).2.st.bytesAvailable = i + remaining ∧
      recvCount (recvLoopInternal env remaining nack i m).2.trace
        = recvCount m.trace + remaining := by
  intro remaining
  induction remaining with
  | zero => intro nack i m h1 h2; exact absurd h1 (by omega)
  | succ rem ih =>
      intro nack i m hpos h
      simp only [recvLoopInternal] at h ⊢
      by_cases hr : (receiveByteAck env (if i = nack then 0 else 1) m).1 = 0
      · simp only [hr, ne_eq, not_true_eq_false, if_false] at h ⊢
        cases rem with
        | zero =>
            simp only [recvLoopInternal]
            refine ⟨?_, ?_⟩
            · rw [storeByte_ba]
            · rw [storeByte_trace, receiveByteAck_recvCount]
        | succ rr =>
            obtain ⟨hba, hrc⟩ := ih nack (i + 1)
              (storeByte (receiveByteAck env (if i = nack then 0 else 1) m).2 i)
              (by omega) h
            refine ⟨?_, ?_⟩
            · rw [hba]; omega
            · rw [hrc, storeByte_trace, receiveByteAck_recvCount]; omega
      · rw [if_pos hr] at h
        simp only at h
        exact absurd h (receive_error_handler_ne hr)

/-- The request-count adjustment of the internal reads (cap at the buffer
capacity, bump zero to one) equals min(max(n,1), capacity). -/
theorem capEq (nb : Nat) :
    (if min nb MAX_BUFFER_SIZE = 0 then min nb MAX_BUFFER_SIZE + 1
     else min nb MAX_BUFFER_SIZE)
      = min (max nb 1) MAX_BUFFER_SIZE := by
  simp only [MAX_BUFFER_SIZE]
  split_ifs <;> omega

theorem capPos (nb : Nat) : 1 ≤ min (max nb 1) MAX_BUFFER_SIZE := by
  simp only [MAX_BUFFER_SIZE]
  omega

/-! ### Helper lemmas: block writes on success place the register and
payload bytes on the bus in order -/

theorem writeBuf_ok (env : Env) (a reg : Nat) (payload : List Nat) (m : M)
    (h : (writeBuf env a reg payload m).1 = 0) :
    sentBytes (writeBuf env a reg payload m).2.trace
      = sentBytes m.trace ++ reg :: payload := by
  simp only [writeBuf] at h ⊢
  split_ifs at h ⊢ with c1 c3 c4 c5
  · exact absurd (by simpa using h) (start_error_handler_ne c1)
  · exact absurd (by simpa using h) (send_error_handler_ne c3)
  · exact absurd (by simpa using h) c4
  · exact absurd (by simpa using h) (stop_error_handler_ne c5)
  · simp only [ne_eq, not_not] at c4
    simp only []
    rw [i2cStop_sentBytes, sendDataLoop_ok env payload _ c4, sendByte_sentBytes,
      sendAddress_sentBytes, i2cStart_sentBytes]
    simp

theorem write16Buf_ok (env : Env) (a reg : Nat) (payload : List Nat) (m : M)
    (h : (write16Buf env a reg payload m).1 = 0) :
    sentBytes (write16Buf env a reg payload m).2.trace
      = sentBytes m.trace ++ reg / 256 :: reg % 256 :: payload := by
  simp only [write16Buf] at h ⊢
  split_ifs at h ⊢ with c1 c2 c3 c4 c5 c6
  · exact absurd (by simpa using h) (start_error_handler_ne c1)
  · exact absurd (by simpa using h) (send_addr_error_handler_ne c2)
  · exact absurd (by simpa using h) (send_error_handler_ne c3)
  · exact absurd (by simpa using h) (send_error_handler_ne c4)
  · exact absurd (by simpa using h) c5
  · exact absurd (by simpa using h) (stop_error_handler_ne c6)
  · simp only [ne_eq, not_not] at c5
    simp only []
    rw [i2cStop_sentBytes, sendDataLoop_ok env payload _ c5, sendByte_sentBytes,
      sendByte_sentBytes, sendAddress_sentBytes, i2cStart_sentBytes]
    simp

theorem write16Reg_ok (env : Env) (a reg : Nat) (m : M)
    (h : (write16Reg env a reg m).1 = 0) :
    sentBytes (write16Reg env a reg m).2.trace
      = sentBytes m.trace ++ [reg / 256, reg % 256] := by
  simp only [write16Reg] at h ⊢
  split_ifs at h ⊢ with c1 c2 c3 c4 c5
  · exact absurd (by simpa using h) (start_error_handler_ne c1)
  · exact absurd (by simpa using h) (send_addr_error_handler_ne c2)
  · exact absurd (by simpa using h) (send_error_handler_ne c3)
  · exact absurd (by simpa using h) (send_error_handler_ne c4)
  · exact absurd (by simpa using h) (stop_error_handler_ne c5)
  · simp only []
    rw [i2cStop_sentBytes, sendByte_sentBytes, sendByte_sentBytes,
      sendAddress_sentBytes, i2cStart_sentBytes]
    simp

/-! ### Helper lemmas: internal reads on success -/

theorem read2_ok (env : Env) (address numberBytes : Nat) (m : M)
    (h : (read2 env address numberBytes m).1 = 0) :
    available (read2 env address numberBytes m).2
      = min (max numberBytes 1) MAX_BUFFER_SIZE ∧
    recvCount (read2 env address numberBytes m).2.trace
      = recvCount m.trace + min (max numberBytes 1) MAX_BUFFER_SIZE := by
  simp only [read2, capEq] at h ⊢
  split_ifs at h ⊢ with c1 c2 c3 c4
  · exact absurd (by simpa using h) (start_error_handler_ne c1)
  · exact absurd (by simpa using h) (send_addr_error_handler_ne c2)
  · exact absurd (by simpa using h) c3
  · exact absurd (by simpa using h) (stop_error_handler_ne c4)
  · simp only [ne_eq, not_not] at c3
    obtain ⟨hba, hrc⟩ := recvLoopInternal_ok env _ _ _ _ (capPos numberBytes) c3
    refine ⟨?_, ?_⟩
    · simp only [available]
      rw [i2cStop_st, hba]
      omega
    · simp only []
      rw [i2cStop_recvCount, hrc, sendAddress_recvCount, i2cStart_recvCount]

set_option maxHeartbeats 1000000 in
theorem read3_ok (env : Env) (address registerAddress numberBytes : Nat) (m : M)
    (h : (read3 env address registerAddress numberBytes m).1 = 0) :
    available (read3 env address registerAddress numberBytes m).2
      = min (max numberBytes 1) MAX_BUFFER_SIZE ∧
    recvCount (read3 env address registerAddress numberBytes m).2.trace
      = recvCount m.trace + min (max numberBytes 1) MAX_BUFFER_SIZE := by
  simp only [read3, capEq] at h ⊢
  split_ifs at h ⊢ with c1 c2 c3 c4 c5 c6 c7
  · exact absurd (by simpa using h) (start_error_handler_ne c1)
  · exact absurd (by simpa using h) (send_addr_error_handler_ne c2)
  · exact absurd (by simpa using h) (send_addr_error_handler_ne c3)
  · exact absurd (by simpa using h) (start_error_handler_ne c4)
  · exact absurd (by simpa using h) (send_addr_error_handler_ne c5)
  · exact absurd (by simpa using h) c6
  · exact absurd (by simpa using h) (stop_error_handler_ne c7)
  · simp only [ne_eq, not_not] at c6
    obtain ⟨hba, hrc⟩ := recvLoopInternal_ok env _ _ _ _ (capPos numberBytes) c6
    refine ⟨?_, ?_⟩
    · simp only [available]
      rw [i2cStop_st, hba]
      omega
    · simp only []
      rw [i2cStop_recvCount, hrc, sendAddress_recvCount, i2cStart_recvCount,
        sendByte_recvCount, sendAddress_recvCount, i2cStart_recvCount]

set_option maxHeartbeats 1000000 in
theorem read16Internal_ok (env : Env) (address registerAddress numberBytes : Nat) (m : M)
    (h : (read16Internal env address registerAddress numberBytes m).1 = 0) :
    available (read16Internal env address registerAddress numberBytes m).2
      = min (max numberBytes 1) MAX_BUFFER_SIZE ∧
    recvCount (read16Internal env address registerAddress numberBytes m).2.trace
      = recvCount m.trace + min (max numberBytes 1) MAX_BUFFER_SIZE := by
  simp only [read16Internal, capEq] at h ⊢
  split_ifs at h ⊢ with c1 c2 c3 c4 c5 c6 c7 c8
  · exact absurd (by simpa using h) (start_error_handler_ne c1)
  · exact absurd (by simpa using h) (send_addr_error_handler_ne c2)
  · exact absurd (by simpa using h) (send_error_handler_ne c3)
  · exact absurd (by simpa using h) (send_error_handler_ne c4)
  · exact absurd (by simpa using h) (start_error_handler_ne c5)
  · exact absurd (by simpa using h) (send_addr_error_handler_ne c6)
  · exact absurd (by simpa using h) c7
  · exact absurd (by simpa using h) (stop_error_handler_ne c8)
  · simp only [ne_eq, not_not] at c7
    obtain ⟨hba, hrc⟩ := recvLoopInternal_ok env _ _ _ _ (capPos numberBytes) c7
    refine ⟨?_, ?_⟩
    · simp only [available]
      rw [i2cStop_st, hba]
      omega
    · simp only []
      rw [i2cStop_recvCount, hrc, sendAddress_recvCount, i2cStart_recvCount,
        sendByte_recvCount, sendByte_recvCount, sendAddress_recvCount, i2cStart_recvCount]

/-! ### Helper lemmas: big-endian serialization bridges -/

theorem writeBytes16_be (d : Nat) : writeBytes16 d = specBigEndianBytes 2 d := by
  simp [writeBytes16, specBigEndianBytes, List.range_succ, Nat.div_one]

theorem writeBytes32_be (d : Nat) : writeBytes32 d = specBigEndianBytes 4 d := by
  simp [writeBytes32, specBigEndianBytes, List.range_succ, Nat.div_one]

theorem writeBytes64_be (d : Nat) : writeBytes64 d = specBigEndianBytes 8 d := by
  simp [writeBytes64, specBigEndianBytes, List.range_succ, Nat.div_one]

theorem regBytes_cons_be (r : Nat) (h : r < 65536) (l : List Nat) :
    r / 256 :: r % 256 :: l = specBigEndianBytes 2 r ++ l := by
  have h2 : r / 256 % 256 = r / 256 := Nat.mod_eq_of_lt (by omega)
  simp [specBigEndianBytes, List.range_succ, Nat.div_one, h2]

theorem regBytes_pair_be (r : Nat) (h : r < 65536) :
    [r / 256, r % 256] = specBigEndianBytes 2 r := by
  have h2 : r / 256 % 256 = r / 256 := Nat.mod_eq_of_lt (by omega)
  simp [specBigEndianBytes, List.range_succ, Nat.div_one, h2]

/-! ### Helper lemmas: scan loop timeout restoration -/

theorem scanLoop_timeOutDelay (env : Env) :
    forall (fuel tempTime : Nat) (m : M),
      (scanLoop env fuel tempTime m).st.timeOutDelay = tempTime := by
  intro fuel
  induction fuel with
  | zero => intro t m; simp [scanLoop]
  | succ rem ih =>
      intro t m
      simp only [scanLoop]
      split_ifs <;> simp [ih]

/-! ### Helper lemmas: which failure paths idle the bus -/

theorem mem_drop_mono {x : TraceOp} {l : List TraceOp} {j n : Nat} (h : j <= n)
    (hx : x ∈ l.drop n) : x ∈ l.drop j := by
  have he : l.drop n = (l.drop j).drop (n - j) := by
    rw [List.drop_drop]
    congr 1
    omega
  rw [he] at hx
  exact List.mem_of_mem_drop hx

theorem i2cStop_stopOp_mem (env : Env) (m : M) :
    TraceOp.stopOp ∈ (i2cStop env m).2.trace.drop m.trace.length := by
  rcases henv : env m.pos with _ | ⟨s, b⟩ <;>
    simp [i2cStop, record, tick, lockUp, henv, List.drop_left]

theorem sendAddress_fail_idles (env : Env) (a : Nat) (m : M)
    (h : (sendAddress env a m).1 ≠ 0) : idles m (sendAddress env a m).2 := by
  rcases henv : env m.pos with _ | ⟨s, b⟩
  · simp [sendAddress, record, tick, lockUp, setTWDR, henv, idles, List.drop_left]
  · simp only [sendAddress, record, tick, lockUp, setTWDR, henv] at h ⊢
    split_ifs at h ⊢ with h1 h2
    · exact absurd rfl h
    · left
      have hmem := i2cStop_stopOp_mem env
        { st := { m.st with twdr := a }, pos := m.pos + 1,
          trace := m.trace ++ [TraceOp.addrOp a] }
      exact mem_drop_mono (by simp) hmem
    · right
      simp [record, idles, List.drop_left]

theorem sendByte_fail_idles (env : Env) (b0 : Nat) (m : M)
    (h : (sendByte env b0 m).1 ≠ 0) : idles m (sendByte env b0 m).2 := by
  rcases henv : env m.pos with _ | ⟨s, b⟩
  · simp [sendByte, record, tick, lockUp, setTWDR, henv, idles, List.drop_left]
  · simp only [sendByte, record, tick, lockUp, setTWDR, henv] at h ⊢
    split_ifs at h ⊢ with h1 h2
    · exact absurd rfl h
    · left
      have hmem := i2cStop_stopOp_mem env
        { st := { m.st with twdr := b0 }, pos := m.pos + 1,
          trace := m.trace ++ [TraceOp.sendOp b0] }
      exact mem_drop_mono (by simp) hmem
    · right
      simp [record, idles, List.drop_left]

theorem i2cStop_fail_idles (env : Env) (m : M)
    (_h : (i2cStop env m).1 ≠ 0) : idles m (i2cStop env m).2 := by
  left
  exact i2cStop_stopOp_mem env m

theorem i2cStart_fail_cases (env : Env) (m : M)
    (h : (i2cStart env m).1 ≠ 0) :
    idles m (i2cStart env m).2 ∨
      ∃ s b, env m.pos = HwEvent.done s b ∧
        s ≠ START ∧ s ≠ REPEATED_START ∧ s ≠ LOST_ARBTRTN := by
  rcases henv : env m.pos with _ | ⟨s, b⟩
  · left
    simp [i2cStart, record, tick, lockUp, henv, idles, List.drop_left]
  · simp only [i2cStart, record, tick, lockUp, henv] at h ⊢
    split_ifs at h ⊢ with h1 h2
    · exact absurd rfl h
    · left
      right
      simp [record, idles, List.drop_left]
    · right
      push_neg at h1
      exact ⟨s, b, rfl, h1.1, h1.2, h2⟩

theorem receiveByteAck_fail_cases (env : Env) (ack : Nat) (m : M)
    (h : (receiveByteAck env ack m).1 ≠ 0) :
    idles m (receiveByteAck env ack m).2 ∨
      ∃ s b, env m.pos = HwEvent.done s b ∧ s ≠ LOST_ARBTRTN := by
  rcases henv : env m.pos with _ | ⟨s, b⟩
  · left
    simp [receiveByteAck, record, tick, lockUp, setTWDR, henv, idles, List.drop_left]
  · simp only [receiveByteAck, record, tick, lockUp, setTWDR, henv] at h ⊢
    split_ifs at h ⊢ with h1 h2 h3 h4
    · left
      right
      simp [record, idles, List.drop_left]
    · exact absurd rfl h
    · right
      exact ⟨s, b, rfl, h1⟩
    · exact absurd rfl h
    · right
      exact ⟨s, b, rfl, h1⟩

/-! ### The claims -/

/-- C1: the claim states that a failure of any primitive short-circuits every
sequencer transaction, in particular that a failed _sendAddress inside a
write aborts with the mapped code.  The code violates this: in
I2C::write(uint8_t, uint8_t) the sendAddress failure branch lacks a return
(src/I2C.cpp:237), so after the address ACK wait times out the write goes on
to send the register byte, issues the stop, and returns 0 (success).  This
theorem evaluates the embedded write at that failing input: the result is 0
and the trace shows the register-byte transmission and the stop performed
after the address-phase lockup. -/
theorem C1_write_continues_after_address_failure :
    (write2 envC1 0x50 0x10 initM).1 = 0 ∧
    (write2 envC1 0x50 0x10 initM).2.trace =
      [TraceOp.startOp, TraceOp.addrOp 0xA0, TraceOp.lockUpOp,
       TraceOp.sendOp 0x10, TraceOp.stopOp] := by
  decide

/-- C2 counterexample: the claim states that every failing primitive leaves
the bus idle (a stop or a lockup recovery) before returning.  False for
_start: when the start wait completes with the unexpected status 0x20, _start
returns the raw nonzero status and the appended trace is just the start
trigger, with neither a stop nor a lockup recovery. -/
theorem C2_counterexample_start_unexpected_status :
    (i2cStart envC2 initM).1 ≠ 0 ∧ ¬ idles initM (i2cStart envC2 initM).2 := by
  decide

/-- C2 amended: every failing _sendAddress, _sendByte and _stop issues its
own stop or triggers lockup recovery before returning; _start and
_receiveByte do so on timeout and on arbitration loss, but return any other
unexpected completion status raw, without a bus-idling action. -/
theorem C2_failure_paths_idle_amended (env : Env) (m : M) (a b0 ack : Nat) :
    ((sendAddress env a m).1 ≠ 0 → idles m (sendAddress env a m).2) ∧
    ((sendByte env b0 m).1 ≠ 0 → idles m (sendByte env b0 m).2) ∧
    ((i2cStop env m).1 ≠ 0 → idles m (i2cStop env m).2) ∧
    ((i2cStart env m).1 ≠ 0 →
      idles m (i2cStart env m).2 ∨
        ∃ s b, env m.pos = HwEvent.done s b ∧
          s ≠ START ∧ s ≠ REPEATED_START ∧ s ≠ LOST_ARBTRTN) ∧
    ((receiveByteAck env ack m).1 ≠ 0 →
      idles m (receiveByteAck env ack m).2 ∨
        ∃ s b, env m.pos = HwEvent.done s b ∧ s ≠ LOST_ARBTRTN) :=
  ⟨sendAddress_fail_idles env a m, sendByte_fail_idles env b0 m,
    i2cStop_fail_idles env m, i2cStart_fail_cases env m,
    receiveByteAck_fail_cases env ack m⟩

/-- C2 amended witness: the amended theorem applied at a concrete timing-out
environment, discharging each failure hypothesis. -/
theorem C2_failure_paths_idle_witness :
    ((sendAddress envC2w 0xA0 initM).1 ≠ 0 ∧
      idles initM (sendAddress envC2w 0xA0 initM).2) ∧
    ((sendByte envC2w 0x10 initM).1 ≠ 0 ∧
      idles initM (sendByte envC2w 0x10 initM).2) ∧
    ((i2cStop envC2w initM).1 ≠ 0 ∧ idles initM (i2cStop envC2w initM).2) ∧
    ((i2cStart envC2w initM).1 ≠ 0 ∧
      (idles initM (i2cStart envC2w initM).2 ∨
        ∃ s b, envC2w initM.pos = HwEvent.done s b ∧
          s ≠ START ∧ s ≠ REPEATED_START ∧ s ≠ LOST_ARBTRTN)) ∧
    ((receiveByteAck envC2w 1 initM).1 ≠ 0 ∧
      (idles initM (receiveByteAck envC2w 1 initM).2 ∨
        ∃ s b, envC2w initM.pos = HwEvent.done s b ∧ s ≠ LOST_ARBTRTN)) :=
  ⟨⟨by decide, (C2_failure_paths_idle_amended envC2w initM 0xA0 0x10 1).1 (by decide)⟩,
   ⟨by decide, (C2_failure_paths_idle_amended envC2w initM 0xA0 0x10 1).2.1 (by decide)⟩,
   ⟨by decide, (C2_failure_paths_idle_amended envC2w initM 0xA0 0x10 1).2.2.1 (by decide)⟩,
   ⟨by decide, (C2_failure_paths_idle_amended envC2w initM 0xA0 0x10 1).2.2.2.1 (by decide)⟩,
   ⟨by decide, (C2_failure_paths_idle_amended envC2w initM 0xA0 0x10 1).2.2.2.2 (by decide)⟩⟩

/-- C3: the claim states that in every sequencer entry point a timeout on a
transmitted data byte's ACK wait yields fault code 3.  The code violates this
in I2C::read(uint8_t, uint8_t, uint8_t): the register-byte sendByte failure
is routed through send_addr_error_handler with RECEIVER_MODE
(src/I2C.cpp:427), so the call returns 5, although the file's own return-code
documentation (src/I2C.cpp:217) assigns code 3 to this wait.  This theorem
evaluates the embedded read at that failing input. -/
theorem C3_read_register_send_timeout_yields_5 :
    (read3 envC3 0x68 0x00 4 initM).1 = 5 := by
  decide

/-- C4: the claim states that a timeout on the repeated-start wait of every
register-addressed read yields fault code 4.  The code violates this in
I2C::read16(uint8_t, uint16_t, uint8_t, uint8_t*): the second start's
failure is routed through start_error_handler with START_MODE
(src/I2C.cpp:817), so the call returns 1, although the file's own return-code
documentation (src/I2C.cpp:218) assigns code 4 to a repeated start.  This
theorem evaluates the embedded read at that failing input. -/
theorem C4_read16_buffer_repeated_start_timeout_yields_1 :
    (read16Buf envC4 0x68 0x1000 2 initM).1 = 1 := by
  decide

/-- C5: the claim states that a slave-address ACK timeout yields 2 when the
address was sent with the write bit and 5 with the read bit.  The code
violates this in I2C::write16(uint8_t, uint16_t, const uint8_t*, uint8_t):
the address is sent as SLA_W but its failure is routed through
send_addr_error_handler with RECEIVER_MODE (src/I2C.cpp:676), so the call
returns 5, although the file's own return-code documentation
(src/I2C.cpp:216) assigns code 2 to the transmit-direction address wait.
This theorem evaluates the embedded write at that failing input. -/
theorem C5_write16_block_address_timeout_yields_5 :
    (write16Buf envC5 0x50 0x1234 [0xAB] initM).1 = 5 := by
  decide

/-- C6: for every internal-buffer read (read, registered read, and 16-bit
registered read) with requested count n, if the transaction returns success
then the available count reported afterwards and the number of bytes clocked
in from the slave both equal min(max(n,1), MAX_BUFFER_SIZE): a zero request
is treated as one byte and an oversized request is silently capped. -/
theorem C6_internal_read_counts (env : Env)
    (address registerAddress numberBytes : Nat) (m : M) :
    ((read2 env address numberBytes m).1 = 0 →
      available (read2 env address numberBytes m).2
          = min (max numberBytes 1) MAX_BUFFER_SIZE ∧
        recvCount (read2 env address numberBytes m).2.trace
          = recvCount m.trace + min (max numberBytes 1) MAX_BUFFER_SIZE) ∧
    ((read3 env address registerAddress numberBytes m).1 = 0 →
      available (read3 env address registerAddress numberBytes m).2
          = min (max numberBytes 1) MAX_BUFFER_SIZE ∧
        recvCount (read3 env address registerAddress numberBytes m).2.trace
          = recvCount m.trace + min (max numberBytes 1) MAX_BUFFER_SIZE) ∧
    ((read16Internal env address registerAddress numberBytes m).1 = 0 →
      available (read16Internal env address registerAddress numberBytes m).2
          = min (max numberBytes 1) MAX_BUFFER_SIZE ∧
        recvCount (read16Internal env address registerAddress numberBytes m).2.trace
          = recvCount m.trace + min (max numberBytes 1) MAX_BUFFER_SIZE) :=
  ⟨fun h => read2_ok env address numberBytes m h,
   fun h => read3_ok env address registerAddress numberBytes m h,
   fun h => read16Internal_ok env address registerAddress numberBytes m h⟩

/-- C6 witness: the three internal reads run to success on concrete
environments; a 4-byte request yields 4 available bytes and a 0-byte request
yields 1. -/
theorem C6_internal_read_counts_witness :
    ((read2 envR2 0x68 4 initM).1 = 0 ∧
      available (read2 envR2 0x68 4 initM).2 = 4) ∧
    ((read3 envR3 0x68 0 1 initM).1 = 0 ∧
      available (read3 envR3 0x68 0 1 initM).2 = 1) ∧
    ((read16Internal envR16 0x68 0x1000 0 initM).1 = 0 ∧
      available (read16Internal envR16 0x68 0x1000 0 initM).2 = 1) := by
  refine ⟨⟨by decide, ?_⟩, ⟨by decide, ?_⟩, ⟨by decide, ?_⟩⟩
  · rw [((C6_internal_read_counts envR2 0x68 0 4 initM).1 (by decide)).1]
    decide
  · rw [((C6_internal_read_counts envR3 0x68 0 1 initM).2.1 (by decide)).1]
    decide
  · rw [((C6_internal_read_counts envR16 0x68 0x1000 0 initM).2.2 (by decide)).1]
    decide

/-- C7: for the 16-, 32- and 64-bit value overloads of write and write16 and
for the 16-bit register address, whenever the transaction returns success the
bytes placed on the bus are the big-endian serialization: the register
byte(s) first, then the value's bytes most significant first (the byte at bus
position i is the i-th most significant byte). -/
theorem C7_big_endian_serialization (env : Env)
    (address r8 r16 d16 d32 d64 : Nat) (m : M) (hr : r16 < 65536) :
    ((writeScalar16 env address r8 d16 m).1 = 0 →
      sentBytes (writeScalar16 env address r8 d16 m).2.trace
        = sentBytes m.trace ++ r8 :: specBigEndianBytes 2 d16) ∧
    ((writeScalar32 env address r8 d32 m).1 = 0 →
      sentBytes (writeScalar32 env address r8 d32 m).2.trace
        = sentBytes m.trace ++ r8 :: specBigEndianBytes 4 d32) ∧
    ((writeScalar64 env address r8 d64 m).1 = 0 →
      sentBytes (writeScalar64 env address r8 d64 m).2.trace
        = sentBytes m.trace ++ r8 :: specBigEndianBytes 8 d64) ∧
    ((write16Reg env address r16 m).1 = 0 →
      sentBytes (write16Reg env address r16 m).2.trace
        = sentBytes m.trace ++ specBigEndianBytes 2 r16) ∧
    ((write16Scalar16 env address r16 d16 m).1 = 0 →
      sentBytes (write16Scalar16 env address r16 d16 m).2.trace
        = sentBytes m.trace ++ specBigEndianBytes 2 r16 ++ specBigEndianBytes 2 d16) ∧
    ((write16Scalar32 env address r16 d32 m).1 = 0 →
      sentBytes (write16Scalar32 env address r16 d32 m).2.trace
        = sentBytes m.trace ++ specBigEndianBytes 2 r16 ++ specBigEndianBytes 4 d32) ∧
    ((write16Scalar64 env address r16 d64 m).1 = 0 →
      sentBytes (write16Scalar64 env address r16 d64 m).2.trace
        = sentBytes m.trace ++ specBigEndianBytes 2 r16 ++ specBigEndianBytes 8 d64) := by
  refine ⟨?_, ?_, ?_, ?_, ?_, ?_, ?_⟩
  · intro h
    rw [writeScalar16] at h ⊢
    rw [writeBuf_ok env address r8 (writeBytes16 d16) m h, writeBytes16_be]
  · intro h
    rw [writeScalar32] at h ⊢
    rw [writeBuf_ok env address r8 (writeBytes32 d32) m h, writeBytes32_be]
  · intro h
    rw [writeScalar64] at h ⊢
    rw [writeBuf_ok env address r8 (writeBytes64 d64) m h, writeBytes64_be]
  · intro h
    rw [write16Reg_ok env address r16 m h, regBytes_pair_be r16 hr]
  · intro h
    rw [write16Scalar16] at h ⊢
    rw [write16Buf_ok env address r16 (writeBytes16 d16) m h,
      regBytes_cons_be r16 hr, writeBytes16_be, List.append_assoc]
  · intro h
    rw [write16Scalar32] at h ⊢
    rw [write16Buf_ok env address r16 (writeBytes32 d32) m h,
      regBytes_cons_be r16 hr, writeBytes32_be, List.append_assoc]
  · intro h
    rw [write16Scalar64] at h ⊢
    rw [write16Buf_ok env address r16 (writeBytes64 d64) m h,
      regBytes_cons_be r16 hr, writeBytes64_be, List.append_assoc]

/-- C7 witness: all seven serializing writes run to success on the all-ACK
environment with concrete values, discharging every hypothesis. -/
theorem C7_big_endian_serialization_witness :
    (0x1234 < 65536 ∧
      (writeScalar16 envMT 0x50 0x10 0xBEEF initM).1 = 0 ∧
      sentBytes (writeScalar16 envMT 0x50 0x10 0xBEEF initM).2.trace
        = sentBytes initM.trace ++ 0x10 :: specBigEndianBytes 2 0xBEEF) ∧
    ((writeScalar32 envMT 0x50 0x10 0xCAFE1234 initM).1 = 0 ∧
      sentBytes (writeScalar32 envMT 0x50 0x10 0xCAFE1234 initM).2.trace
        = sentBytes initM.trace ++ 0x10 :: specBigEndianBytes 4 0xCAFE1234) ∧
    ((writeScalar64 envMT 0x50 0x10 0x0123456789ABCDEF initM).1 = 0 ∧
      sentBytes (writeScalar64 envMT 0x50 0x10 0x0123456789ABCDEF initM).2.trace
        = sentBytes initM.trace ++ 0x10 :: specBigEndianBytes 8 0x0123456789ABCDEF) ∧
    ((write16Reg envMT 0x50 0x1234 initM).1 = 0 ∧
      sentBytes (write16Reg envMT 0x50 0x1234 initM).2.trace
        = sentBytes initM.trace ++ specBigEndianBytes 2 0x1234) ∧
    ((write16Scalar16 envMT 0x50 0x1234 0xBEEF initM).1 = 0 ∧
      sentBytes (write16Scalar16 envMT 0x50 0x1234 0xBEEF initM).2.trace
        = sentBytes initM.trace ++ specBigEndianBytes 2 0x1234
            ++ specBigEndianBytes 2 0xBEEF) := by
  refine ⟨⟨by decide, by decide, ?_⟩, ⟨by decide, ?_⟩, ⟨by decide, ?_⟩,
    ⟨by decide, ?_⟩, ⟨by decide, ?_⟩⟩
  · exact (C7_big_endian_serialization envMT 0x50 0x10 0x1234 0xBEEF 0xCAFE1234
      0x0123456789ABCDEF initM (by decide)).1 (by decide)
  · exact (C7_big_endian_serialization envMT 0x50 0x10 0x1234 0xBEEF 0xCAFE1234
      0x0123456789ABCDEF initM (by decide)).2.1 (by decide)
  · exact (C7_big_endian_serialization envMT 0x50 0x10 0x1234 0xBEEF 0xCAFE1234
      0x0123456789ABCDEF initM (by decide)).2.2.1 (by decide)
  · exact (C7_big_endian_serialization envMT 0x50 0x10 0x1234 0xBEEF 0xCAFE1234
      0x0123456789ABCDEF initM (by decide)).2.2.2.1 (by decide)
  · exact (C7_big_endian_serialization envMT 0x50 0x10 0x1234 0xBEEF 0xCAFE1234
      0x0123456789ABCDEF initM (by decide)).2.2.2.2.1 (by decide)

/-- C8: for every environment (every sequence of per-address ACK, NACK or
timeout outcomes) and every prior state, after scan returns the configured
timeout equals its prior value exactly, although the scan temporarily runs
with an 80 ms timeout. -/
theorem C8_scan_restores_timeout (env : Env) (m : M) :
    (scan env m).st.timeOutDelay = m.st.timeOutDelay := by
  simp [scan, scanLoop_timeOutDelay]

/-- C9: whenever the internal buffer's available count is 0, receive returns
0, sets the cursor to 0, leaves the available count at 0, and a second call
returns exactly the same result from the same state (idempotence on the
exhausted buffer). -/
theorem C9_receive_exhausted_idempotent (m : M) (h : m.st.bytesAvailable = 0) :
    (receive m).1 = 0 ∧
    (receive m).2.st.bufferIndex = 0 ∧
    (receive m).2.st.bytesAvailable = 0 ∧
    receive (receive m).2 = receive m := by
  simp [receive, h]

/-- C9 witness: the theorem applied at the concrete initial state. -/
theorem C9_receive_exhausted_idempotent_witness :
    initM.st.bytesAvailable = 0 ∧
    ((receive initM).1 = 0 ∧
      (receive initM).2.st.bufferIndex = 0 ∧
      (receive initM).2.st.bytesAvailable = 0 ∧
      receive (receive initM).2 = receive initM) :=
  ⟨by decide, C9_receive_exhausted_idempotent initM (by decide)⟩

/-- C10: the two-argument _receiveByte contract.  On a successful receive it
stores the hardware-delivered byte (the data register contents) into the
target and returns 0; when the wait times out it stores 0x00 and returns the
mapped fault code 6 while the one-argument overload returns the raw code 1;
on every failure it stores 0x00 and returns receive_error_handler of the raw
code, so the target is never left unwritten. -/
theorem C10_receive_into_contract (env : Env) (ack : Nat) (m : M) :
    (∀ s b, env m.pos = HwEvent.done s b →
      (ack ≠ 0 ∧ s = MR_DATA_ACK) ∨ (ack = 0 ∧ s = MR_DATA_NACK) →
      receiveByteInto env ack m = (0, b, (receiveByteAck env ack m).2)) ∧
    (env m.pos = HwEvent.timeout →
      (receiveByteInto env ack m).1 = 6 ∧
      (receiveByteInto env ack m).2.1 = 0 ∧
      (receiveByteAck env ack m).1 = 1) ∧
    ((receiveByteAck env ack m).1 ≠ 0 →
      (receiveByteInto env ack m).2.1 = 0 ∧
      (receiveByteInto env ack m).1
        = receive_error_handler (receiveByteAck env ack m).1) := by
  refine ⟨?_, ?_, ?_⟩
  · rintro s b henv (⟨hack, rfl⟩ | ⟨rfl, rfl⟩)
    · simp [receiveByteInto, receiveByteAck, record, tick, setTWDR, lockUp, henv,
        hack, MR_DATA_ACK, LOST_ARBTRTN]
    · simp [receiveByteInto, receiveByteAck, record, tick, setTWDR, lockUp, henv,
        MR_DATA_NACK, LOST_ARBTRTN]
  · intro henv
    simp [receiveByteInto, receiveByteAck, record, tick, lockUp, henv,
      receive_error_handler]
  · intro hne
    simp [receiveByteInto, hne]

/-- C10 witness: the contract applied at a successful receive of byte 0x5A
and at a timed-out receive, discharging each hypothesis. -/
theorem C10_receive_into_contract_witness :
    (envC10a initM.pos = HwEvent.done MR_DATA_ACK 0x5A ∧
      receiveByteInto envC10a 1 initM
        = (0, 0x5A, (receiveByteAck envC10a 1 initM).2)) ∧
    (envC10b initM.pos = HwEvent.timeout ∧
      (receiveByteInto envC10b 1 initM).1 = 6 ∧
      (receiveByteInto envC10b 1 initM).2.1 = 0 ∧
      (receiveByteAck envC10b 1 initM).1 = 1) ∧
    ((receiveByteAck envC10b 1 initM).1 ≠ 0 ∧
      (receiveByteInto envC10b 1 initM).2.1 = 0 ∧
      (receiveByteInto envC10b 1 initM).1
        = receive_error_handler (receiveByteAck envC10b 1 initM).1) :=
  ⟨⟨by decide, (C10_receive_into_contract envC10a 1 initM).1 MR_DATA_ACK 0x5A
      (by decide) (Or.inl ⟨by decide, rfl⟩)⟩,
   ⟨by decide, (C10_receive_into_contract envC10b 1 initM).2.1 (by decide)⟩,
   ⟨by decide, (C10_receive_into_contract envC10b 1 initM).2.2 (by decide)⟩⟩

end I2CModel

